import Mathlib

/-!
Verification of the V_Streamer engagement and authorization logic.

The definitions below are a shallow embedding of the route handlers in
`src/routes/video.routes.js`, the comment routes, and the `checkAuth`
middleware in `src/middleware/auth.middleware.js`.  User identities and
document ids are modelled as `String`, Mongo documents as Lean structures,
and each handler as a pure function on those structures (the persistence
collaborator performs atomic single-document reads and writes, so a
handler invocation is a function from the fetched document to the saved
document plus an HTTP status).
-/

/-- A stored video document, with the fields the routes read and write
(`video.routes.js`: upload creates `title, description, user_id, videoUrl,
videoId, thumbnailUrl, thumbnailId, category, tags`; engagement routes
touch `likes`, `dislikes`, `viewedBy`). -/
structure Video where
  title : String
  description : String
  user_id : String
  videoUrl : String
  videoId : String
  thumbnailUrl : String
  thumbnailId : String
  category : String
  tags : List String
  likes : Int
  dislikes : Int
  viewedBy : List String
  deriving Repr, DecidableEq

/-- Handler body of `POST /like` (video.routes.js lines 560-563):
`video.likes += 1; if (video.dislikes > 0) { video.dislikes -= 1; }`. -/
def likeVideo (v : Video) : Video :=
  let v := { v with likes := v.likes + 1 }
  if v.dislikes > 0 then { v with dislikes := v.dislikes - 1 } else v

/-- Handler body of `POST /dislike` (video.routes.js lines 620-623):
`video.dislikes += 1; if (video.likes > 0) { video.likes -= 1; }`. -/
def dislikeVideo (v : Video) : Video :=
  let v := { v with dislikes := v.dislikes + 1 }
  if v.likes > 0 then { v with likes := v.likes - 1 } else v

/-- Mongo `$addToSet` on an array field: append the element only when it is
not already a member (used by `GET /:id`, video.routes.js line 424). -/
def addToSet (s : List String) (u : String) : List String :=
  if u ∈ s then s else s ++ [u]

/-- View tracking of `GET /:id` (video.routes.js lines 422-426):
`findByIdAndUpdate(videoId, { $addToSet: { viewedBy: userId } })`. -/
def recordView (v : Video) (u : String) : Video :=
  { v with viewedBy := addToSet v.viewedBy u }

/-- A freshly created video: counts are zero and `viewedBy` is empty
(upload handler creates the document without engagement fields, so they
take their zero/empty defaults). -/
def freshVideo : Video :=
  { title := "t", description := "d", user_id := "owner", videoUrl := "vu"
    videoId := "vid", thumbnailUrl := "tu", thumbnailId := "tid"
    category := "c", tags := [], likes := 0, dislikes := 0, viewedBy := [] }

/-- JavaScript `x || y` on a possibly-absent string field: an absent field
and the empty string are falsy, any other string is truthy. -/
def jsOrS (x : Option String) (y : String) : String :=
  match x with
  | none => y
  | some s => if s = "" then y else s

/-- Request body of `PUT /update/:id`: the optional text fields and, when a
thumbnail file was sent, the `(secure_url, public_id)` pair the storage
collaborator returns for it. -/
structure UpdateReq where
  title : Option String
  description : Option String
  category : Option String
  tags : Option String
  thumbnail : Option (String × String)
  deriving Repr, DecidableEq

/-- The mutation performed by `PUT /update/:id` on a found, owned video
(video.routes.js lines 239-259): replace the thumbnail when a file was
sent, then `video.title = title || video.title` and likewise for
description and category, and `video.tags = tags ? tags.split(",") :
video.tags`. -/
def applyUpdate (v : Video) (r : UpdateReq) : Video :=
  let v := match r.thumbnail with
    | none => v
    | some (url, pid) => { v with thumbnailUrl := url, thumbnailId := pid }
  { v with
    title := jsOrS r.title v.title
    description := jsOrS r.description v.description
    category := jsOrS r.category v.category
    tags := match r.tags with
      | none => v.tags
      | some s => if s = "" then v.tags else s.splitOn "," }

/-- An `UpdateReq` with every field absent. -/
def emptyUpdateReq : UpdateReq :=
  { title := none, description := none, category := none, tags := none
    thumbnail := none }

/-- Full `PUT /update/:id` route (video.routes.js lines 225-269): 404 when
`findById` returns nothing, 403 when the caller is not the owner (state
untouched), otherwise 200 with the updated document saved.  The result is
the HTTP status together with the persisted document (`none` when the
video does not exist). -/
def videoUpdateRoute (found : Option Video) (callerId : String)
    (r : UpdateReq) : Nat × Option Video :=
  match found with
  | none => (404, none)
  | some v =>
    if v.user_id ≠ callerId then (403, some v)
    else (200, some (applyUpdate v r))

/-- A stored comment document (comment routes create `video_id,
commentText, user_id`).  `commentText` is `Option` because the update
handler can assign the absent (`undefined`) body field to it. -/
structure Comment where
  video_id : String
  commentText : Option String
  user_id : String
  deriving Repr, DecidableEq

/-- Comment route `DELETE /:commentId`: 404 when the comment is absent,
403 when the caller is not the author (comment kept), 200 with the comment
removed otherwise. -/
def commentDeleteRoute (found : Option Comment) (callerId : String) :
    Nat × Option Comment :=
  match found with
  | none => (404, none)
  | some c =>
    if c.user_id ≠ callerId then (403, some c)
    else (200, none)

/-- Comment route `PUT /:commentId`: when the comment is absent the
handler answers `res.status(401).json({ error: "Comment not found" })`;
when the caller is not the author it answers 403; otherwise it assigns the
destructured body field to `comment.commentText` unconditionally and
saves. -/
def commentUpdateRoute (found : Option Comment) (callerId : String)
    (body : Option String) : Nat × Option Comment :=
  match found with
  | none => (401, none)
  | some c =>
    if c.user_id ≠ callerId then (403, some c)
    else (200, some { c with commentText := body })

/-- Outcome of the `checkAuth` middleware: proceed with the decoded user,
or answer 401 or 500 directly. -/
inductive AuthResult where
  | ok (userId : String)
  | status401
  | status500
  deriving Repr, DecidableEq

/-- JavaScript `String.prototype.split(" ")` on the character list of the
header: pieces between space characters, empty pieces kept. -/
def splitAux : List Char → List Char → List String
  | [], acc => [String.mk acc.reverse]
  | c :: rest, acc =>
    if c = ' ' then String.mk acc.reverse :: splitAux rest []
    else splitAux rest (c :: acc)

/-- Token extraction `req.headers.authorization?.split(" ")[1]`: the second space-separated
word of the authorization header, when the header is present and has
one. -/
def extractToken (authHeader : Option String) : Option String :=
  authHeader.bind fun h => (splitAux h.toList [])[1]?

/-- Middleware `checkAuth` (auth.middleware.js lines 3-23): a missing (or falsy,
i.e. empty) token answers 401 `No Token Is Provided`; `jwt.verify` is the
collaborator `verify`, and when it rejects the token the thrown error is
caught and answered with status 500; on success the decoded user is
attached and the request proceeds. -/
def checkAuth (authHeader : Option String)
    (verify : String → Option String) : AuthResult :=
  match extractToken authHeader with
  | none => .status401
  | some t =>
    if t = "" then .status401
    else
      match verify t with
      | some u => .ok u
      | none => .status500

/-- One mutating operation of the system on a video document. -/
inductive Op where
  | view (user : String)
  | like
  | dislike
  | update (r : UpdateReq)
  deriving Repr, DecidableEq

/-- The effect of one operation on a (found, authorized) video document. -/
def step (v : Video) : Op → Video
  | .view u => recordView v u
  | .like => likeVideo v
  | .dislike => dislikeVideo v
  | .update r => applyUpdate v r

/-- A requested reaction, the `desired` input of the spec's
`recordReaction`. -/
inductive Desired where
  | liked
  | disliked
  deriving Repr, DecidableEq

/-- The handler the router dispatches a reaction request to: `POST /like`
or `POST /dislike`.  The handlers never read the identity of the caller, so the
user component of a reaction event is ignored here. -/
def applyReaction (v : Video) : Desired → Video
  | .liked => likeVideo v
  | .disliked => dislikeVideo v

/-- Run a sequence of reaction requests `(user, desired)` through the
like/dislike handlers, in order. -/
def runTrace (v : Video) (t : List (String × Desired)) : Video :=
  t.foldl (fun w e => applyReaction w e.2) v

/-- Modelled from the spec: the current reaction of `u` after a trace of
reaction events, per the §4.1 state machine (every transition ends in the
desired state, so the current state is the last desired value the user
requested, and `none` when the user never reacted).  The repository keeps
no `reactionsByUser` map, so this spec-side definition is the reference
the stored counters are compared against. -/
def lastDesired (t : List (String × Desired)) (u : String) : Option Desired :=
  ((t.filter fun e => e.1 = u).getLast?).map Prod.snd

/-- Modelled from the spec: `|{u : reactionsByUser[u] == Liked}|`, the
number of distinct users whose current reaction after the trace is
Liked. -/
def distinctLiked (t : List (String × Desired)) : Nat :=
  ((t.map Prod.fst).dedup.filter fun u => lastDesired t u = some .liked).length

/-- A concrete stored comment used as witness input. -/
def sampleComment : Comment :=
  { video_id := "v1", commentText := some "hello", user_id := "author1" }

/-! ## Helper lemmas -/

/-- Re-inserting an element already produced by `addToSet` is a no-op. -/
theorem addToSet_idem (s : List String) (u : String) :
    addToSet (addToSet s u) u = addToSet s u := by
  unfold addToSet
  by_cases h : u ∈ s <;> simp [h]

/-- Insertion with `addToSet` never removes members. -/
theorem subset_addToSet (s : List String) (u : String) : s ⊆ addToSet s u := by
  unfold addToSet
  split
  · exact fun a ha => ha
  · exact List.subset_append_left s [u]

/-- The like handler leaves `viewedBy` alone. -/
theorem likeVideo_viewedBy (v : Video) : (likeVideo v).viewedBy = v.viewedBy := by
  simp only [likeVideo]
  split <;> rfl

/-- The dislike handler leaves `viewedBy` alone. -/
theorem dislikeVideo_viewedBy (v : Video) :
    (dislikeVideo v).viewedBy = v.viewedBy := by
  simp only [dislikeVideo]
  split <;> rfl

/-- The metadata-update mutation leaves `viewedBy` alone. -/
theorem applyUpdate_viewedBy (v : Video) (r : UpdateReq) :
    (applyUpdate v r).viewedBy = v.viewedBy := by
  unfold applyUpdate
  rcases r.thumbnail with _ | ⟨url, pid⟩ <;> rfl

/-! ## Claim theorems -/

/-- C1: the claim states that a second identical `POST /like` by the same
user leaves the likes and dislikes counts unchanged.  The handler
unconditionally increments `likes`, so on a fresh video the first like
call yields likes = 1 and an immediately repeated like call yields
likes = 2: the second call does change the counter. -/
theorem like_twice_double_counts :
    (likeVideo freshVideo).likes = 1 ∧
    (likeVideo freshVideo).dislikes = 0 ∧
    (likeVideo (likeVideo freshVideo)).likes = 2 ∧
    (likeVideo (likeVideo freshVideo)).dislikes = 0 := by
  refine ⟨rfl, rfl, rfl, rfl⟩

/-- C2: the claim states that `likes` always equals the number of distinct
users whose current reaction is Liked.  The handlers keep no per-user
reaction map; after the trace in which the user alice likes twice from a
fresh video, the stored counter is 2 while the spec-side projection counts
a single distinct liker. -/
theorem likes_not_distinct_liker_count :
    (runTrace freshVideo [("alice", .liked), ("alice", .liked)]).likes = 2 ∧
    distinctLiked [("alice", .liked), ("alice", .liked)] = 1 ∧
    (2 : Int) ≠ (1 : Int) := by
  refine ⟨rfl, by decide, by decide⟩

/-- C3: the claim states that on every Video/Comment edit/delete an absent
resource yields 404.  The video update and comment delete routes do answer
404 for an absent resource and 403 for a non-owner, but the comment update
route answers status 401 when the comment does not exist, not 404. -/
theorem commentUpdate_missing_not_404 :
    (videoUpdateRoute none "caller" emptyUpdateReq).1 = 404 ∧
    (commentDeleteRoute none "caller").1 = 404 ∧
    (commentUpdateRoute none "caller" (some "text")).1 = 401 := by
  refine ⟨rfl, rfl, rfl⟩

/-- C4 counterexample: the claim states that a token failing verification
yields 401; `checkAuth` lets the rejection raised by `jwt.verify` fall into the catch
block, which answers status 500, not 401. -/
theorem checkAuth_invalid_token_not_401 :
    checkAuth (some "Bearer bad") (fun _ => none) = .status500 ∧
    checkAuth (some "Bearer bad") (fun _ => none) ≠ .status401 := by
  refine ⟨rfl, by decide⟩

/-- C4 amended: a request with no usable token (missing header, or no
second word, or an empty token) is answered 401; a present non-empty token
that fails verification is answered 500 by the generic catch handler; a
verified token lets the request proceed with the decoded identity.  401 is
still distinct from 500. -/
theorem checkAuth_behavior (hdr : Option String)
    (verify : String → Option String) :
    ((extractToken hdr = none ∨ extractToken hdr = some "") →
      checkAuth hdr verify = .status401) ∧
    (∀ t, extractToken hdr = some t → t ≠ "" → verify t = none →
      checkAuth hdr verify = .status500) ∧
    (∀ t u, extractToken hdr = some t → t ≠ "" → verify t = some u →
      checkAuth hdr verify = .ok u) ∧
    AuthResult.status401 ≠ .status500 := by
  refine ⟨?_, ?_, ?_, by decide⟩
  · rintro (h | h) <;> simp [checkAuth, h]
  · intro t ht hne hv
    simp [checkAuth, ht, hne, hv]
  · intro t u ht hne hv
    simp [checkAuth, ht, hne, hv]

/-- C4 witness: `checkAuth_behavior` instantiated on a missing header, on
a header whose token the verifier rejects, and on a header whose token
decodes to `u1`. -/
theorem checkAuth_behavior_witness :
    checkAuth none (fun _ => none) = .status401 ∧
    checkAuth (some "Bearer bad") (fun _ => none) = .status500 ∧
    checkAuth (some "Bearer tok1")
      (fun s => if s = "tok1" then some "u1" else none) = .ok "u1" := by
  refine ⟨(checkAuth_behavior none _).1 (Or.inl rfl),
    (checkAuth_behavior _ _).2.1 "bad" rfl (by decide) rfl,
    (checkAuth_behavior _ _).2.2.1 "tok1" "u1" rfl (by decide) (by decide)⟩

/-- C5: from a video with likes = 0 and dislikes = 0, the request sequence
(A likes, A dislikes, A likes, B likes) drives the stored counters through
(1,0), (0,1), (1,0), (2,0).  The handlers never read the caller identity,
so the calls of A and of B are the same function. -/
theorem scenario_like_dislike_like_like (v : Video)
    (hl : v.likes = 0) (hd : v.dislikes = 0) :
    ((likeVideo v).likes, (likeVideo v).dislikes) = (1, 0) ∧
    ((dislikeVideo (likeVideo v)).likes,
      (dislikeVideo (likeVideo v)).dislikes) = (0, 1) ∧
    ((likeVideo (dislikeVideo (likeVideo v))).likes,
      (likeVideo (dislikeVideo (likeVideo v))).dislikes) = (1, 0) ∧
    ((likeVideo (likeVideo (dislikeVideo (likeVideo v)))).likes,
      (likeVideo (likeVideo (dislikeVideo (likeVideo v)))).dislikes)
      = (2, 0) := by
  simp [likeVideo, dislikeVideo, hl, hd]

/-- C5 witness: the scenario theorem applied to the concrete fresh
video. -/
theorem scenario_like_dislike_like_like_witness :
    ((likeVideo freshVideo).likes, (likeVideo freshVideo).dislikes) = (1, 0) ∧
    ((dislikeVideo (likeVideo freshVideo)).likes,
      (dislikeVideo (likeVideo freshVideo)).dislikes) = (0, 1) ∧
    ((likeVideo (dislikeVideo (likeVideo freshVideo))).likes,
      (likeVideo (dislikeVideo (likeVideo freshVideo))).dislikes) = (1, 0) ∧
    ((likeVideo (likeVideo (dislikeVideo (likeVideo freshVideo)))).likes,
      (likeVideo (likeVideo (dislikeVideo (likeVideo freshVideo)))).dislikes)
      = (2, 0) :=
  scenario_like_dislike_like_like freshVideo rfl rfl

/-- C6: recording a view is idempotent — `$addToSet` inserts the user only
when absent, so a second `GET /:id` by the same user leaves `viewedBy` (and
the whole document) exactly as after the first. -/
theorem recordView_idem (v : Video) (u : String) :
    recordView (recordView v u) u = recordView v u := by
  simp [recordView, addToSet_idem]

/-- C7: `viewedBy` only grows — across every mutating operation on a video
(view, like, dislike, metadata update), the `viewedBy` list before the
operation is a subset of the one after it. -/
theorem viewedBy_monotone (v : Video) (op : Op) :
    v.viewedBy ⊆ (step v op).viewedBy := by
  cases op with
  | view u =>
    simpa [step, recordView] using subset_addToSet v.viewedBy u
  | like => simp [step, likeVideo_viewedBy]
  | dislike => simp [step, dislikeVideo_viewedBy]
  | update r => simp [step, applyUpdate_viewedBy]

/-- C8: when both stored counters are non-negative, they stay non-negative
after a like and after a dislike: the increment only adds, and the paired
decrement runs only under the strict-positivity guard. -/
theorem counters_nonneg (v : Video)
    (hl : 0 ≤ v.likes) (hd : 0 ≤ v.dislikes) :
    (0 ≤ (likeVideo v).likes ∧ 0 ≤ (likeVideo v).dislikes) ∧
    (0 ≤ (dislikeVideo v).likes ∧ 0 ≤ (dislikeVideo v).dislikes) := by
  simp only [likeVideo, dislikeVideo]
  constructor <;> constructor <;> split <;> simp <;> omega

/-- C8 witness: the non-negativity theorem applied to the fresh video. -/
theorem counters_nonneg_witness :
    (0 ≤ (likeVideo freshVideo).likes ∧
      0 ≤ (likeVideo freshVideo).dislikes) ∧
    (0 ≤ (dislikeVideo freshVideo).likes ∧
      0 ≤ (dislikeVideo freshVideo).dislikes) :=
  counters_nonneg freshVideo (by decide) (by decide)

/-- C9: a like or dislike touches only the `likes` and `dislikes` fields;
title, description, owner, media urls and ids, category, tags and
`viewedBy` are all returned unchanged. -/
theorem reaction_frame (v : Video) :
    ((likeVideo v).title = v.title ∧
     (likeVideo v).description = v.description ∧
     (likeVideo v).user_id = v.user_id ∧
     (likeVideo v).videoUrl = v.videoUrl ∧
     (likeVideo v).videoId = v.videoId ∧
     (likeVideo v).thumbnailUrl = v.thumbnailUrl ∧
     (likeVideo v).thumbnailId = v.thumbnailId ∧
     (likeVideo v).category = v.category ∧
     (likeVideo v).tags = v.tags ∧
     (likeVideo v).viewedBy = v.viewedBy) ∧
    ((dislikeVideo v).title = v.title ∧
     (dislikeVideo v).description = v.description ∧
     (dislikeVideo v).user_id = v.user_id ∧
     (dislikeVideo v).videoUrl = v.videoUrl ∧
     (dislikeVideo v).videoId = v.videoId ∧
     (dislikeVideo v).thumbnailUrl = v.thumbnailUrl ∧
     (dislikeVideo v).thumbnailId = v.thumbnailId ∧
     (dislikeVideo v).category = v.category ∧
     (dislikeVideo v).tags = v.tags ∧
     (dislikeVideo v).viewedBy = v.viewedBy) := by
  simp only [likeVideo, dislikeVideo]
  constructor <;> split <;> simp

/-- C10: when the author updates an existing comment with a body that
omits `commentText`, the handler still answers 200 and saves the comment
with `commentText` overwritten by the absent value: the previous text is
lost, and the stored comment differs from the original. -/
theorem commentUpdate_overwrites (c : Comment) (callerId : String)
    (t : String) (hown : c.user_id = callerId)
    (htext : c.commentText = some t) :
    (commentUpdateRoute (some c) callerId none).1 = 200 ∧
    (commentUpdateRoute (some c) callerId none).2
      = some { c with commentText := none } ∧
    (∀ c', (commentUpdateRoute (some c) callerId none).2 = some c' →
      c' ≠ c) := by
  subst hown
  refine ⟨by simp [commentUpdateRoute], by simp [commentUpdateRoute], ?_⟩
  intro c' hc'
  simp [commentUpdateRoute] at hc'
  intro hC
  rw [← hc'] at hC
  have := congrArg Comment.commentText hC
  simp [htext] at this

/-- C10 witness: the overwrite theorem applied to a concrete stored
comment with text `"hello"` updated by its author with an absent body
field. -/
theorem commentUpdate_overwrites_witness :
    (commentUpdateRoute (some sampleComment) "author1" none).1 = 200 ∧
    (commentUpdateRoute (some sampleComment) "author1" none).2
      = some { sampleComment with commentText := none } ∧
    (∀ c', (commentUpdateRoute (some sampleComment) "author1" none).2
       = some c' → c' ≠ sampleComment) :=
  commentUpdate_overwrites sampleComment "author1" "hello" rfl rfl
